import Mathlib

/-!
Shallow embedding of the web-crawler core
(`src/lambda/crawler/core.ts` and `src/lambda/steps/3_crawlPageAndQueueUrls.ts`).

JavaScript strings are modelled as `List Char`; external collaborators
(the browser session, the HTTP fetch API, the DynamoDB-backed frontier store
and S3) are modelled by environment records carrying their observable
behaviour, and the steps produce an explicit trace of the external calls
they make, so that ordering and error-propagation claims can be stated.
-/

/-- JavaScript strings, modelled as lists of characters. -/
abbrev Str := List Char

/-- Coerce a Lean string literal into the model. -/
def str (s : String) : Str := s.data

/-- JS `String.prototype.startsWith`. -/
def jsStartsWith (s p : Str) : Bool := p.isPrefixOf s

/-- JS `String.prototype.toLowerCase`, restricted to its ASCII behaviour. -/
def jsToLower (s : Str) : Str := s.map Char.toLower

/-- JS `String.prototype.includes`: `containsSub sub hay` is true when `sub`
occurs contiguously inside `hay`. -/
def containsSub (sub : Str) : Str → Bool
  | [] => sub.isEmpty
  | c :: t => sub.isPrefixOf (c :: t) || containsSub sub t

/-- core.ts line 85: a url is inside the base website when it does not start
with `http` (the code's test for a relative link) or starts with the base url. -/
def isUrlWithinBaseWebsite (url baseUrl : Str) : Bool :=
  !(jsStartsWith url (str "http")) || jsStartsWith url baseUrl

/-- core.ts lines 91-93: keywords are optional; when present, some keyword must
occur in the lowercased url (`url.toLowerCase().includes(keyword)` — the keyword
itself is not lowercased). -/
def isUrlMatchingSomeKeyword (url : Str) (keywords : Option (List Str)) : Bool :=
  match keywords with
  | none => true
  | some ks => ks.isEmpty || ks.any (fun keyword => containsSub keyword (jsToLower url))

/-- RFC 3986 scheme characters (used only by the spec-side predicate below). -/
def isSchemeChar (c : Char) : Bool :=
  c.isAlpha || c.isDigit || c.toNat = 43 || c.toNat = 45 || c.toNat = 46

/-- Whether the string begins with a URI scheme (`ALPHA *(ALPHA / DIGIT / + / - / .) ":"`).
This is the reading of "has no scheme (it is relative)" used by the written spec;
it is compared against the source's actual `startsWith('http')` test. -/
def hasScheme (url : Str) : Bool :=
  let before := url.takeWhile (fun c => c.toNat ≠ 58)
  decide (before.length < url.length) && !before.isEmpty &&
    (before.head?.map Char.isAlpha).getD false && before.all isSchemeChar

/-- The same-site classification exactly as the spec sentence words it:
same-site iff the candidate has no scheme, or it starts with the base URL. -/
def specSameSite (url baseUrl : Str) : Bool :=
  !(hasScheme url) || jsStartsWith url baseUrl

/-- The keyword filter exactly as the spec sentence words it: a keyword matches
case-insensitively (both the keyword and the url lowercased). -/
def specKeywordMatches (url : Str) (keywords : Option (List Str)) : Bool :=
  match keywords with
  | none => true
  | some ks => ks.isEmpty || ks.any (fun k => containsSub (jsToLower k) (jsToLower url))

/-!
A model of the WHATWG `URL` class (node's `url` module) as far as the crawler
exercises it: hierarchical `scheme://host/path` URLs, relative references that
are either absolute paths or resolved against the directory of the base path.
Query/fragment handling and non-hierarchical schemes (such as `mailto:`) are
outside the modelled subset; constructing them fails, as every theorem below
only exercises the hierarchical subset.
-/

/-- A parsed hierarchical URL. `path` is either empty or begins with `/`. -/
structure Url where
  scheme : Str
  host : Str
  path : Str
deriving DecidableEq, Repr

/-- WHATWG `pathname`: the serialized path, `/` when the path is empty. -/
def Url.pathname (u : Url) : Str := if u.path.isEmpty then str "/" else u.path

/-- WHATWG `origin` for hierarchical schemes. -/
def Url.origin (u : Url) : Str := u.scheme ++ str "://" ++ u.host

/-- WHATWG `href`: origin followed by the pathname. -/
def Url.href (u : Url) : Str := u.origin ++ u.pathname

/-- Split a string at the first `:`, requiring it to be followed by `//`;
returns the scheme part and the remainder after `://`. -/
def splitSchemeSep : Str → Option (Str × Str)
  | [] => none
  | c :: rest =>
    if c.toNat = 58 then
      match rest with
      | s1 :: s2 :: tail =>
        if s1.toNat = 47 && s2.toNat = 47 then some ([], tail) else none
      | _ => none
    else (splitSchemeSep rest).map (fun p => (c :: p.1, p.2))

/-- Parse an absolute hierarchical URL; scheme and host are lowercased as the
WHATWG parser normalizes them. -/
def parseAbs (s : Str) : Option Url :=
  match splitSchemeSep s with
  | none => none
  | some (sch, rest) =>
    if !sch.isEmpty && (sch.head?.map Char.isAlpha).getD false && sch.all isSchemeChar then
      let host := rest.takeWhile (fun c => c.toNat ≠ 47)
      let path := rest.dropWhile (fun c => c.toNat ≠ 47)
      if host.isEmpty then none else some ⟨jsToLower sch, jsToLower host, path⟩
    else none

/-- The directory part of a path: everything up to and including the last `/`;
`/` when the path has no slash. -/
def dirOf (p : Str) : Str :=
  let r := p.reverse.dropWhile (fun c => c.toNat ≠ 47)
  if r.isEmpty then str "/" else r.reverse

/-- Resolve a relative reference against a parsed base URL. -/
def resolveRel (ref : Str) (base : Url) : Option Url :=
  if ref.isEmpty then some base
  else if ref.head? = some '/' then
    some ⟨base.scheme, base.host, ref⟩
  else some ⟨base.scheme, base.host, dirOf base.path ++ ref⟩

/-- `new URL(s)` with a single argument: parses an absolute URL or throws
(modelled as `none`). -/
def newURL1 (s : Str) : Option Url := parseAbs s

/-- `new URL(s, base)`: the WHATWG constructor parses `base` first and throws
when it is invalid, regardless of `s`; otherwise `s` is taken absolute when it
parses, and resolved against `base` otherwise. -/
def newURL2 (s base : Str) : Option Url :=
  match parseAbs base with
  | none => none
  | some b =>
    match parseAbs s with
    | some u => some u
    | none => resolveRel s b

/-- Concatenation of the images of each character. -/
def strFlatMap (f : Char → Str) : Str → Str
  | [] => []
  | c :: t => f c ++ strFlatMap f t

/-- Upper-case hexadecimal digit for `n < 16`. -/
def hexDigitChar (n : Nat) : Char :=
  if n < 10 then Char.ofNat (48 + n) else Char.ofNat (55 + n)

/-- `%XX` percent-encoding of one byte. -/
def percentEncodeByte (b : Nat) : Str :=
  ['%', hexDigitChar (b / 16), hexDigitChar (b % 16)]

/-- The UTF-8 bytes of a code point. -/
def utf8Bytes (n : Nat) : List Nat :=
  if n < 128 then [n]
  else if n < 2048 then [192 + n / 64, 128 + n % 64]
  else if n < 65536 then [224 + n / 4096, 128 + (n / 64) % 64, 128 + n % 64]
  else [240 + n / 262144, 128 + (n / 4096) % 64, 128 + (n / 64) % 64, 128 + n % 64]

/-- The characters `encodeURIComponent` leaves unescaped:
letters, digits, and `- _ . ! ~ * ' ( )`. -/
def isUnreservedInURIComponent (c : Char) : Bool :=
  c.isAlpha || c.isDigit || c.toNat = 45 || c.toNat = 95 || c.toNat = 46 ||
    c.toNat = 33 || c.toNat = 126 || c.toNat = 42 || c.toNat = 39 ||
    c.toNat = 40 || c.toNat = 41

/-- JS `encodeURIComponent`. -/
def encodeURIComponent (s : Str) : Str :=
  strFlatMap
    (fun c =>
      if isUnreservedInURIComponent c then [c]
      else (utf8Bytes c.toNat).foldr (fun b acc => percentEncodeByte b ++ acc) [])
    s

/-- node `path.join` restricted to two plain segments (no `..` normalization,
which the source never needs). -/
def pathJoin (a b : Str) : Str :=
  if a.isEmpty then b else if b.isEmpty then a else a ++ '/' :: b

/-- `Metadata` from crawler/types: title, the `last-modified` field and url. -/
structure Metadata where
  title : Str
  lastModified : Str
  url : Str
deriving DecidableEq, Repr

/-- `PageContent` from crawler/types: metadata plus the markdown-converted body. -/
structure PageContent where
  metadata : Metadata
  html : Str
deriving DecidableEq, Repr

/-- JSON string escaping as `JSON.stringify` performs it for the characters
appearing here (quote, backslash, newline, carriage return, tab). -/
def jsonEscapeChar (c : Char) : Str :=
  if c.toNat = 34 then [Char.ofNat 92, Char.ofNat 34]
  else if c.toNat = 92 then [Char.ofNat 92, Char.ofNat 92]
  else if c.toNat = 10 then [Char.ofNat 92, 'n']
  else if c.toNat = 13 then [Char.ofNat 92, 'r']
  else if c.toNat = 9 then [Char.ofNat 92, 't']
  else [c]

/-- A JSON string literal: escaped content between double quotes. -/
def jsonQuoted (s : Str) : Str :=
  Char.ofNat 34 :: (strFlatMap jsonEscapeChar s ++ [Char.ofNat 34])

/-- `JSON.stringify(content)` for a `PageContent` value, field order as the
object literals in `extractContent` produce it. -/
def jsonStringifyPageContent (c : PageContent) : Str :=
  str "\x7b" ++ jsonQuoted (str "metadata") ++ str ":" ++ str "\x7b" ++
    jsonQuoted (str "title") ++ str ":" ++ jsonQuoted c.metadata.title ++ str "," ++
    jsonQuoted (str "last-modified") ++ str ":" ++ jsonQuoted c.metadata.lastModified ++
    str "," ++ jsonQuoted (str "url") ++ str ":" ++ jsonQuoted c.metadata.url ++
    str "\x7d" ++ str "," ++ jsonQuoted (str "html") ++ str ":" ++ jsonQuoted c.html ++
    str "\x7d"

/-- `CrawlDestination` from crawler/types: the S3 key prefix for the crawl. -/
structure CrawlDestination where
  s3KeyPrefix : Str
deriving DecidableEq, Repr

/-- core.ts lines 67-78, `writePageToS3`: returns the S3 put that would be
issued — `none` when the page is skipped. Line 68 tests
`!content.html || !content.metadata`; `metadata` is always an object built by
`extractContent`, so only an empty html string causes the skip. -/
def writePageToS3 (url : Str) (content : PageContent) (dest : CrawlDestination) :
    Option (Str × Str) :=
  if content.html.isEmpty then none
  else
    some (pathJoin dest.s3KeyPrefix (encodeURIComponent url ++ str ".html"),
      jsonStringifyPageContent content)

/-- The response observed by the HEAD request in `getLastModified`:
`ok` status and the optional `Last-Modified` header. -/
structure HeadResponse where
  ok : Bool
  lastModifiedHeader : Option Str
deriving DecidableEq, Repr

/-- JS `try`/`finally` in which the `finally` block itself executes `return v`:
that return supersedes both a value returned from the try block and any
exception thrown inside it, so the combined statement always yields `v`. -/
def tryFinallyReturn (_tryOutcome : Except Unit (Option α)) (v : α) : α := v

/-- The try block of core.ts lines 17-26: `error` models the fetch rejecting,
`ok none` models falling off the end of the block (response not ok),
`ok (some s)` models `return lastModifiedHeader || ''`.
The HEAD fetch behaviour is supplied as `resp` (`none` = fetch rejects). -/
def getLastModifiedTryBlock (resp : Option HeadResponse) : Except Unit (Option Str) :=
  match resp with
  | none => .error ()
  | some r =>
    if r.ok then .ok (some (r.lastModifiedHeader.getD []))
    else .ok none

/-- core.ts lines 16-30, `getLastModified`: the try block feeds a
`finally` block that ends in `return ''`. -/
def getLastModified (resp : Option HeadResponse) : Str :=
  tryFinallyReturn (getLastModifiedTryBlock resp) []

/-- The observable behaviour of the rendered page and of the external services
touched while extracting it. A failing navigation (covering `newPage`, `goto`
and the DOM evaluations) is `navOk = false`; a failing S3 put is
`s3Ok = false`. `robotsAllowed` is the resolved value of
`isUrlAllowedInRobots` (which never rejects: it fails open), and `translate`
is the html-to-markdown conversion of `NodeHtmlMarkdown`. -/
structure PageEnv where
  navOk : Bool
  s3Ok : Bool
  title : Str
  locationHref : Str
  bodyHtml : Str
  hrefs : List (Option Str)
  headResp : Option HeadResponse
  robotsAllowed : Str → Bool
  translate : Str → Str

/-- core.ts lines 43-62, `extractContent`: the page title, the (always empty,
see `getLastModified`) last-modified value, the page url and the
markdown-converted body. -/
def extractContent (env : PageEnv) : PageContent :=
  { metadata :=
      { title := env.title
        lastModified := getLastModified env.headResp
        url := env.locationHref }
    html := env.translate env.bodyHtml }

/-- A JS `Promise` is an object and hence truthy irrespective of the value it
resolves to; this models the result of calling an `async` predicate where a
synchronous one is expected (core.ts line 131, the argument of
`Array.prototype.filter`). -/
def promiseIsTruthy (_resolved : Bool) : Bool := true

/-- `CrawlPageInput` from crawler/types: the fields read by the crawler. -/
structure CrawlPageInput where
  baseUrl : Str
  path : Str
  pathKeywords : Option (List Str)

/-- core.ts lines 116-134, `getLinksToFollow`. The anchor hrefs are filtered to
non-empty same-site urls, made absolute (throwing — `Except.error` — when `new
URL` fails), and finally passed through a `filter` whose predicate is `async`:
the promise it returns is truthy, so this last filter keeps every element no
matter what the robots check or the keyword check resolve to. -/
def getLinksToFollow (hrefs : List (Option Str)) (locationHref baseUrl : Str)
    (keywords : Option (List Str)) (robotsAllowed : Str → Bool) :
    Except Unit (List Str) :=
  let urls := hrefs
  let currentPageUrlParts := locationHref.splitOn '/'
  let relativeUrlBase :=
    List.intercalate ['/'] (currentPageUrlParts.take currentPageUrlParts.length)
  let filtered := urls.filterMap (fun o =>
    match o with
    | none => none
    | some url =>
      if !url.isEmpty && isUrlWithinBaseWebsite url baseUrl then some url else none)
  let mapped : Except Unit (List Str) := filtered.mapM (fun url =>
    if jsStartsWith url baseUrl then Except.ok url
    else
      match newURL2 url relativeUrlBase with
      | none => Except.error ()
      | some u => Except.ok (u.origin ++ u.pathname))
  match mapped with
  | .error e => .error e
  | .ok us =>
    .ok (us.filter (fun url =>
      promiseIsTruthy (robotsAllowed url && isUrlMatchingSomeKeyword url keywords)))

/-- `new Set(...)` over a list: deduplication keeping first occurrences, in
insertion order. -/
def dedupAux (seen : List Str) : List Str → List Str
  | [] => []
  | x :: xs =>
    if seen.contains x then dedupAux seen xs else x :: dedupAux (x :: seen) xs

/-- The list obtained by spreading `new Set(l)`. -/
def dedupKeepFirst (l : List Str) : List Str := dedupAux [] l

/-- The externally visible calls made by the crawler step, in order. -/
inductive Event where
  | markVisitedOk (path : Str)
  | markVisitedErr (path : Str)
  | launchOk
  | launchErr
  | gotoOk (url : Str)
  | gotoErr (url : Str)
  | putS3 (key : Str) (body : Str)
  | putS3Err (key : Str)
  | queuePathsOk (paths : List Str)
  | queuePathsErr
  | browserClosed
deriving DecidableEq, Repr

/-- A trace of external calls. -/
abbrev Trace := List Event

/-- Events performed against the fetched page: launching the browser or
navigating to the url (successfully or not). -/
def isFetchEvent : Event → Bool
  | Event.launchOk => true
  | Event.launchErr => true
  | Event.gotoOk _ => true
  | Event.gotoErr _ => true
  | _ => false

/-- core.ts lines 159-181: the body of the try block after a successful
navigation — extract the content, write it to S3 when non-empty, and collect
the links. An S3 failure throws to the catch at line 182, which returns `[]`.
Returns the performed events and the value produced. -/
def followLinks (env : PageEnv) (input : CrawlPageInput) : Trace × List Str :=
  match getLinksToFollow env.hrefs env.locationHref input.baseUrl input.pathKeywords
      env.robotsAllowed with
  | Except.error _ => ([], [])
  | Except.ok links =>
    ([], (dedupKeepFirst links).filterMap (fun u => (newURL1 u).map Url.pathname))

/-- Continuation of `extractPageContentAndUrls` after the page has loaded. -/
def extractAfterNav (env : PageEnv) (url : Str) (input : CrawlPageInput)
    (dest : CrawlDestination) : Trace × List Str :=
  let content := extractContent env
  match writePageToS3 url content dest with
  | some kv =>
    if env.s3Ok then
      let r := followLinks env input
      (Event.putS3 kv.1 kv.2 :: r.1, r.2)
    else ([Event.putS3Err kv.1], [])
  | none => followLinks env input

/-- core.ts lines 145-186, `extractPageContentAndUrls`. Line 150 runs
`new URL(input.path, input.baseUrl)` before the try block, so a failure there
rejects the whole call (`Except.error`); every failure after it is caught at
line 182 and yields `Except.ok []`. -/
def extractPageContentAndUrls (env : PageEnv) (input : CrawlPageInput)
    (dest : CrawlDestination) : Trace × Except Unit (List Str) :=
  match newURL2 input.path input.baseUrl with
  | none => ([], Except.error ())
  | some u0 =>
    if env.navOk then
      let r := extractAfterNav env u0.href input dest
      (Event.gotoOk u0.href :: r.1, Except.ok r.2)
    else ([Event.gotoErr u0.href], Except.ok [])

/-- `CrawlContext` from crawler/types: the fields this step reads. -/
structure CrawlContext where
  contextTableName : Str
  baseUrl : Str
  pathKeywords : Option (List Str)
  crawlName : Str

/-- The outcome of the frontier-store calls and of the browser launch made by
the step, together with the page behaviour. -/
structure StepEnv where
  markVisitedOk : Bool
  launchOk : Bool
  queueOk : Bool
  page : PageEnv

/-- Steps lines 26-51: what happens after `markPathAsVisited` resolves.
A launch rejection is caught by the catch at line 46 with no browser to close;
after a successful launch the browser is closed by the finally at line 50 on
every path, and a rejection of `extractPageContentAndUrls` (its pre-try
`new URL`) or of `queuePaths` is caught at line 46. -/
def afterVisit (env : StepEnv) (path : Str) (ctx : CrawlContext) : Trace :=
  if env.launchOk then
    Event.launchOk ::
      (let er := extractPageContentAndUrls env.page
        ⟨ctx.baseUrl, path, ctx.pathKeywords⟩ ⟨ctx.crawlName⟩
       er.1 ++
        (match er.2 with
          | Except.error _ => []
          | Except.ok urlPaths =>
            if env.queueOk then [Event.queuePathsOk urlPaths] else [Event.queuePathsErr]) ++
        [Event.browserClosed])
  else [Event.launchErr]

/-- Steps lines 13-54, `crawlPageAndQueueUrls`: mark the path visited, then
crawl it. The catch at lines 46-48 swallows every exception and the function
returns `{}` (modelled as `Except.ok ()`) on all paths; `browser.close()` is
modelled as always succeeding. -/
def crawlPageAndQueueUrls (env : StepEnv) (path : Str) (ctx : CrawlContext) :
    Trace × Except Unit Unit :=
  if env.markVisitedOk then
    (Event.markVisitedOk path :: afterVisit env path ctx, Except.ok ())
  else ([Event.markVisitedErr path], Except.ok ())

/-- The trace of external calls a step performs. -/
def stepTrace (env : StepEnv) (path : Str) (ctx : CrawlContext) : Trace :=
  (crawlPageAndQueueUrls env path ctx).1

/-- A concrete page environment used by the witnesses. -/
def samplePage : PageEnv :=
  { navOk := true
    s3Ok := true
    title := str "T"
    locationHref := str "https://ex.com/"
    bodyHtml := str "<p>hi</p>"
    hrefs := [some (str "https://ex.com/private")]
    headResp := none
    robotsAllowed := fun _ => true
    translate := fun s => s }

/-- A concrete crawl context used by the witnesses. -/
def sampleCtx : CrawlContext :=
  { contextTableName := str "tbl"
    baseUrl := str "https://ex.com"
    pathKeywords := none
    crawlName := str "crawl1" }

/-! ## Theorems -/

/-- `containsSub` computes list containment (`List.IsInfix`). -/
theorem containsSub_iff (sub : Str) (hay : Str) :
    containsSub sub hay = true ↔ sub <:+: hay := by
  induction hay with
  | nil =>
    simp [containsSub, List.isEmpty_iff]
  | cons c t ih =>
    simp [containsSub, Bool.or_eq_true, List.isPrefixOf_iff_prefix, ih,
      List.infix_cons_iff]

/-- `jsStartsWith` computes the prefix relation. -/
theorem jsStartsWith_iff (s p : Str) : jsStartsWith s p = true ↔ p <+: s := by
  simp [jsStartsWith, List.isPrefixOf_iff_prefix]

/-- C6 counterexample: the spec-side classification ("no scheme, or prefix of
the base") and the source's `isUrlWithinBaseWebsite` disagree on
`mailto:hi@ex.com` against base `https://ex.com`: the candidate has a scheme
and does not extend the base, yet the code classifies it same-site because it
does not start with `http`. -/
theorem sameSite_scheme_counterexample :
    specSameSite (str "mailto:hi@ex.com") (str "https://ex.com") = false ∧
    isUrlWithinBaseWebsite (str "mailto:hi@ex.com") (str "https://ex.com") = true := by
  constructor <;> decide

/-- C6 (amended): `isUrlWithinBaseWebsite` classifies a candidate as same-site
iff it does not start with the literal `http` (the code's test for a relative
link) or it starts with the base URL; `/about` and `https://ex.com/x` against
base `https://ex.com` are same-site and `https://other.com/x` is excluded. -/
theorem isUrlWithinBaseWebsite_spec :
    (∀ url base : Str, isUrlWithinBaseWebsite url base = true ↔
      (¬ (str "http" <+: url) ∨ base <+: url)) ∧
    isUrlWithinBaseWebsite (str "/about") (str "https://ex.com") = true ∧
    isUrlWithinBaseWebsite (str "https://ex.com/x") (str "https://ex.com") = true ∧
    isUrlWithinBaseWebsite (str "https://other.com/x") (str "https://ex.com") = false := by
  refine ⟨fun url base => ?_, by decide, by decide, by decide⟩
  have h1 := @List.isPrefixOf_iff_prefix Char _ _ (str "http") url
  have h2 := @List.isPrefixOf_iff_prefix Char _ _ base url
  simp only [isUrlWithinBaseWebsite, jsStartsWith, Bool.or_eq_true, ← h1, ← h2,
    Bool.not_eq_true, Bool.not_eq_true']

/-- C7 counterexample: the claim's case-insensitive reading and the source's
`isUrlMatchingSomeKeyword` disagree on the url `https://ex.com/BLOG` with
keyword list `["BLOG"]`: the keyword is a case-insensitive substring of the
url, yet the code lowercases only the url and not the keyword, so the
uppercase keyword never matches. -/
theorem keyword_case_counterexample :
    specKeywordMatches (str "https://ex.com/BLOG") (some [str "BLOG"]) = true ∧
    isUrlMatchingSomeKeyword (str "https://ex.com/BLOG") (some [str "BLOG"]) = false := by
  constructor <;> decide

/-- C7 (amended): `isUrlMatchingSomeKeyword` returns true iff the keyword list
is absent or empty, or some keyword occurs verbatim as a substring of the
lowercased URL (the keyword itself is not lowercased); in particular a URL
containing `blog` matches the list `["blog"]`, and every URL matches an absent
or an empty list. -/
theorem isUrlMatchingSomeKeyword_spec :
    (∀ (url : Str) (keywords : Option (List Str)),
      isUrlMatchingSomeKeyword url keywords = true ↔
        (keywords = none ∨ keywords = some [] ∨
          ∃ ks, keywords = some ks ∧ ∃ k ∈ ks, k <:+: jsToLower url)) ∧
    isUrlMatchingSomeKeyword (str "https://ex.com/blog/post") (some [str "blog"]) = true ∧
    (∀ url : Str, isUrlMatchingSomeKeyword url none = true) ∧
    (∀ url : Str, isUrlMatchingSomeKeyword url (some []) = true) := by
  refine ⟨fun url keywords => ?_, by decide, fun url => rfl, fun url => rfl⟩
  cases keywords with
  | none => simp [isUrlMatchingSomeKeyword]
  | some ks =>
    simp [isUrlMatchingSomeKeyword, Bool.or_eq_true, List.any_eq_true,
      containsSub_iff, List.isEmpty_iff]

/-- C3: the `finally` block of `getLastModified` ends in `return ''`, which
supersedes the `return` inside the try block, so the function yields the empty
string for every response — including a successful HEAD response carrying a
`Last-Modified` header, whose value the try block had computed. -/
theorem getLastModified_always_empty :
    (∀ resp, getLastModified resp = []) ∧
    getLastModified (some ⟨true, some (str "Tue, 15 Oct 2024 12:00:00 GMT")⟩) = [] ∧
    getLastModifiedTryBlock (some ⟨true, some (str "Tue, 15 Oct 2024 12:00:00 GMT")⟩) =
      Except.ok (some (str "Tue, 15 Oct 2024 12:00:00 GMT")) := by
  exact ⟨fun resp => rfl, rfl, rfl⟩

/-- C8: `writePageToS3` issues exactly one S3 put iff the extracted html is
non-empty; the put stores the JSON-serialized page content under the key
`s3KeyPrefix/encodeURIComponent(url).html`, and an empty page issues no put. -/
theorem writePageToS3_spec (url : Str) (content : PageContent)
    (dest : CrawlDestination) :
    (writePageToS3 url content dest = none ↔ content.html = []) ∧
    (content.html ≠ [] → dest.s3KeyPrefix ≠ [] →
      writePageToS3 url content dest =
        some (dest.s3KeyPrefix ++ str "/" ++ encodeURIComponent url ++ str ".html",
          jsonStringifyPageContent content)) := by
  constructor
  · unfold writePageToS3
    by_cases h : content.html = [] <;> simp [h, List.isEmpty_iff]
  · intro h1 h2
    unfold writePageToS3 pathJoin
    simp [List.isEmpty_iff, h1, h2, List.append_eq_nil, str]

/-- C8 witness: a non-empty page is written under the expected key. -/
theorem writePageToS3_spec_witness :
    writePageToS3 (str "https://ex.com/a")
        ⟨⟨str "T", [], str "https://ex.com/a"⟩, str "hi"⟩ ⟨str "crawl1"⟩ =
      some ((⟨str "crawl1"⟩ : CrawlDestination).s3KeyPrefix ++ str "/" ++
          encodeURIComponent (str "https://ex.com/a") ++ str ".html",
        jsonStringifyPageContent ⟨⟨str "T", [], str "https://ex.com/a"⟩, str "hi"⟩) :=
  (writePageToS3_spec (str "https://ex.com/a")
    ⟨⟨str "T", [], str "https://ex.com/a"⟩, str "hi"⟩ ⟨str "crawl1"⟩).2
    (by decide) (by decide)

/-- C1: the robots check and the keyword check never gate the result of
`getLinksToFollow`: its final filter receives an `async` predicate whose
promise is truthy, so the output is identical to running with no keywords and
an all-allowing robots policy; in particular a same-site link that the robots
policy disallows and that matches no keyword is still returned. -/
theorem getLinksToFollow_ignores_robots_and_keywords :
    (∀ (hrefs : List (Option Str)) (locationHref baseUrl : Str)
        (keywords : Option (List Str)) (robotsAllowed : Str → Bool),
      getLinksToFollow hrefs locationHref baseUrl keywords robotsAllowed =
        getLinksToFollow hrefs locationHref baseUrl none (fun _ => true)) ∧
    getLinksToFollow [some (str "https://ex.com/private")] (str "https://ex.com/")
        (str "https://ex.com") (some [str "blog"]) (fun _ => false) =
      Except.ok [str "https://ex.com/private"] := by
  constructor
  · intro hrefs locationHref baseUrl keywords robotsAllowed
    unfold getLinksToFollow
    simp only [promiseIsTruthy, List.filter_true]
  · rfl

/-- C2: in every execution of the step, any attempt to launch the browser or
to navigate to the page is preceded in the trace by the successful completion
of `markPathAsVisited` for that path; no execution path reaches the fetch
without the mark-visited call having happened first. -/
theorem markVisited_precedes_fetch (env : StepEnv) (path : Str) (ctx : CrawlContext)
    (i : Nat) (e : Event) (hi : (stepTrace env path ctx)[i]? = some e)
    (hf : isFetchEvent e = true) :
    ∃ j, j < i ∧ (stepTrace env path ctx)[j]? = some (Event.markVisitedOk path) := by
  unfold stepTrace crawlPageAndQueueUrls at hi ⊢
  by_cases h : env.markVisitedOk = true
  · simp only [h, if_true] at hi ⊢
    cases i with
    | zero =>
      have he : e = Event.markVisitedOk path := by simpa using hi.symm
      subst he
      have hfe : isFetchEvent (Event.markVisitedOk path) = false := rfl
      rw [hfe] at hf
      exact Bool.noConfusion hf
    | succ n =>
      exact ⟨0, Nat.succ_pos n, by simp⟩
  · simp only [h, if_false] at hi
    cases i with
    | zero =>
      have he : e = Event.markVisitedErr path := by simpa using hi.symm
      subst he
      have hfe : isFetchEvent (Event.markVisitedErr path) = false := rfl
      rw [hfe] at hf
      exact Bool.noConfusion hf
    | succ n => simp at hi

/-- C2 witness: in a fully successful run the launch event at index 1 is
preceded by the mark-visited completion. -/
theorem markVisited_precedes_fetch_witness :
    ∃ j, j < 1 ∧ (stepTrace ⟨true, true, true, samplePage⟩ (str "/") sampleCtx)[j]? =
      some (Event.markVisitedOk (str "/")) :=
  markVisited_precedes_fetch ⟨true, true, true, samplePage⟩ (str "/") sampleCtx 1
    Event.launchOk rfl rfl

/-- C4 counterexample: with a failing `markPathAsVisited` the step still
returns `{}` normally — the rejection is caught by the catch block inside
`crawlPageAndQueueUrls`, so no error propagates to the external scheduler. -/
theorem crawl_swallows_store_failure :
    (⟨false, true, true, samplePage⟩ : StepEnv).markVisitedOk = false ∧
    crawlPageAndQueueUrls ⟨false, true, true, samplePage⟩ (str "/p") sampleCtx =
      ([Event.markVisitedErr (str "/p")], Except.ok ()) := ⟨rfl, rfl⟩

/-- C4 (amended): when `markPathAsVisited`, `queuePaths` or the blob-store
write fails during `crawlPageAndQueueUrls`, the error is handled inside the
step — caught by the step's own catch block (or, for the S3 write, by the
catch inside `extractPageContentAndUrls`) — and the step returns `{}`
normally; nothing propagates to the external scheduler. -/
theorem store_failures_do_not_propagate (env : StepEnv) (path : Str)
    (ctx : CrawlContext)
    (hfail : env.markVisitedOk = false ∨ env.queueOk = false ∨ env.page.s3Ok = false) :
    (crawlPageAndQueueUrls env path ctx).2 = Except.ok () := by
  unfold crawlPageAndQueueUrls
  by_cases hm : env.markVisitedOk = true <;> simp [hm]

/-- C4 witness: a failing frontier-store write, handled inside the step. -/
theorem store_failures_do_not_propagate_witness :
    (crawlPageAndQueueUrls ⟨false, true, true, samplePage⟩ (str "/p") sampleCtx).2 =
      Except.ok () :=
  store_failures_do_not_propagate ⟨false, true, true, samplePage⟩ (str "/p") sampleCtx
    (Or.inl rfl)

/-- C5: a failure while navigating to or extracting a single page is caught
locally: `extractPageContentAndUrls` performs no S3 put and returns the empty
list rather than an error, and `crawlPageAndQueueUrls` still returns `{}`
normally, so one page's failure never aborts the surrounding batch. -/
theorem page_failure_caught_locally (penv : PageEnv) (input : CrawlPageInput)
    (dest : CrawlDestination) (env : StepEnv) (path : Str) (ctx : CrawlContext) :
    (penv.navOk = false → ∀ u, newURL2 input.path input.baseUrl = some u →
      extractPageContentAndUrls penv input dest =
        ([Event.gotoErr u.href], Except.ok [])) ∧
    (env.page.navOk = false → (crawlPageAndQueueUrls env path ctx).2 = Except.ok ()) := by
  constructor
  · intro hn u hu
    unfold extractPageContentAndUrls
    rw [hu]
    simp [hn]
  · intro _
    unfold crawlPageAndQueueUrls
    by_cases hm : env.markVisitedOk = true <;> simp [hm]

/-- C5 witness: a page whose navigation fails yields no put and no links. -/
theorem page_failure_caught_locally_witness :
    extractPageContentAndUrls
        ⟨false, true, str "T", str "https://ex.com/", str "", [], none,
          fun _ => true, fun s => s⟩
        ⟨str "https://ex.com", str "/a", none⟩ ⟨str "crawl1"⟩ =
      ([Event.gotoErr (Url.href ⟨str "https", str "ex.com", str "/a"⟩)], Except.ok []) :=
  (page_failure_caught_locally
      ⟨false, true, str "T", str "https://ex.com/", str "", [], none,
        fun _ => true, fun s => s⟩
      ⟨str "https://ex.com", str "/a", none⟩ ⟨str "crawl1"⟩
      ⟨true, true, true, samplePage⟩ (str "/a") sampleCtx).1
    rfl ⟨str "https", str "ex.com", str "/a"⟩ (by decide)

/-- C9: when `markPathAsVisited` itself rejects, the step's catch block
swallows the error before the browser is launched: the trace consists of the
failed mark-visited call alone — no launch, no navigation, no S3 put, no
enqueue — and the step still returns `{}`, reporting success. -/
theorem markVisited_failure_returns_empty_object (env : StepEnv) (path : Str)
    (ctx : CrawlContext) (h : env.markVisitedOk = false) :
    crawlPageAndQueueUrls env path ctx =
      ([Event.markVisitedErr path], Except.ok ()) := by
  unfold crawlPageAndQueueUrls
  simp [h]

/-- C9 witness. -/
theorem markVisited_failure_returns_empty_object_witness :
    crawlPageAndQueueUrls ⟨false, true, true, samplePage⟩ (str "/q") sampleCtx =
      ([Event.markVisitedErr (str "/q")], Except.ok ()) :=
  markVisited_failure_returns_empty_object ⟨false, true, true, samplePage⟩ (str "/q")
    sampleCtx rfl

/-- C10: `new URL(input.path, input.baseUrl)` runs before the try block of
`extractPageContentAndUrls`, so an invalid path/baseUrl combination rejects
the whole call with no event performed, while every input whose URL
constructs yields a normal (`Except.ok`) result whatever else fails. -/
theorem url_construction_outside_try (penv : PageEnv) (input : CrawlPageInput)
    (dest : CrawlDestination) :
    (newURL2 input.path input.baseUrl = none →
      extractPageContentAndUrls penv input dest = ([], Except.error ())) ∧
    (∀ u, newURL2 input.path input.baseUrl = some u →
      ∃ l, (extractPageContentAndUrls penv input dest).2 = Except.ok l) := by
  constructor
  · intro h
    unfold extractPageContentAndUrls
    rw [h]
  · intro u hu
    unfold extractPageContentAndUrls
    rw [hu]
    by_cases hn : penv.navOk = true <;> simp [hn]

/-- C10 witness: a relative path against an invalid (empty) base URL rejects
the call before the try block. -/
theorem url_construction_outside_try_witness :
    extractPageContentAndUrls samplePage ⟨str "", str "about", none⟩ ⟨str "crawl1"⟩ =
      ([], Except.error ()) :=
  (url_construction_outside_try samplePage ⟨str "", str "about", none⟩
    ⟨str "crawl1"⟩).1 rfl
